import Mathlib

/-!
Verification of the media-upload component in src/components/FileUpload.tsx.

The component is a thin controller over an external upload SDK.  We embed its
event handlers as pure functions: each handler takes the component state and
returns the new state together with the user-facing notices (toasts) it emits
and, for the success handler, the list of invocations of the caller-supplied
callback onFileChange.  JavaScript numbers produced by the unguarded division
in onUploadProgress are modelled by the type JSNum, which has a rational
constructor together with positive and negative infinity and NaN, matching
IEEE semantics for division by zero and Math.round on non-finite values.
-/

/-- Kind of media handled by one component instance — the `type` prop,
either `"image"` or `"video"`. -/
inductive MediaType where
  | image : MediaType
  | video : MediaType
deriving DecidableEq

/-- String rendered for a media type in toast messages (template `${type}`). -/
def MediaType.str : MediaType → String
  | MediaType.image => "image"
  | MediaType.video => "video"

/-- User-facing notice produced by the `toast` call: title, description and
whether the `destructive` variant was requested. -/
structure Toast where
  title : String
  description : String
  destructive : Bool
deriving DecidableEq

/-- JavaScript number as it can appear in the `progress` state: a finite
rational, one of the two infinities, or NaN. -/
inductive JSNum where
  | num (q : ℚ) : JSNum
  | posInf : JSNum
  | negInf : JSNum
  | nan : JSNum
deriving DecidableEq

/-- Component state: the `file` state variable (its `filePath` field, `null`
modelled as `none`) and the `progress` state variable. -/
structure UploadState where
  filePath : Option String
  progress : JSNum
deriving DecidableEq

/-- Initial state at mount: `filePath` is `value ?? null` and `progress` is 0. -/
def initialState (value : Option String) : UploadState :=
  { filePath := value, progress := JSNum.num 0 }

/-- Toast emitted by `onValidate` when the file is too large; `limit` is the
rendered ceiling, `"20MB"` or `"50MB"`. -/
def sizeToast (limit : String) : Toast :=
  { title := "File size too large"
    description := "Please upload a file that is less than " ++ limit ++ " in size"
    destructive := true }

/-- The `onValidate` handler (`validateFile`): given the media type and the
selected file size in bytes, returns the boolean verdict and the toasts
emitted.  Mirrors the two size checks of the source. -/
def onValidate (ty : MediaType) (size : ℕ) : Bool × List Toast :=
  if ty = MediaType.image ∧ size > 20 * 1024 * 1024 then
    (false, [sizeToast "20MB"])
  else if ty = MediaType.video ∧ size > 50 * 1024 * 1024 then
    (false, [sizeToast "50MB"])
  else
    (true, [])

/-- Toast emitted by the `onError` handler. -/
def failToast (ty : MediaType) : Toast :=
  { title := ty.str ++ " upload failed"
    description := "Your " ++ ty.str ++ " could not be uploaded. Please try again."
    destructive := true }

/-- The `onError` handler: logs and emits the kind-specific failure toast;
the component state is not touched. -/
def onError (ty : MediaType) (s : UploadState) : UploadState × List Toast :=
  (s, [failToast ty])

/-- Toast emitted by the `onSuccess` handler on its truthy branch. -/
def successToast (ty : MediaType) (p : String) : Toast :=
  { title := ty.str ++ " uploaded successfully"
    description := p ++ " uploaded successfully!"
    destructive := false }

/-- Success payload delivered by the SDK: its `filePath` field, with `none`
for a missing field; the empty string is falsy in the source's
`if (res.filePath)` test, exactly like a missing field. -/
structure SuccessRes where
  filePath : Option String
deriving DecidableEq

/-- The `onSuccess` handler: on a truthy `res.filePath` it stores the payload
(`setFile(res)`), invokes `onFileChange(res.filePath)` and emits the success
toast; otherwise it delegates to `onError`.  The third component of the result
is the list of `onFileChange` invocations. -/
def onSuccess (ty : MediaType) (res : SuccessRes) (s : UploadState) :
    UploadState × List Toast × List String :=
  match res.filePath with
  | some p =>
    if p = "" then
      ((onError ty s).1, (onError ty s).2, [])
    else
      ({ filePath := some p, progress := s.progress }, [successToast ty p], [p])
  | none => ((onError ty s).1, (onError ty s).2, [])

/-- The `onUploadStart` handler: `setProgress(0)`. -/
def onUploadStart (s : UploadState) : UploadState :=
  { s with progress := JSNum.num 0 }

/-- JavaScript `Math.round` on a finite non-negative value: round half
towards positive infinity. -/
def jsRound (q : ℚ) : ℤ := ⌊q + 1 / 2⌋

/-- Value computed by `Math.round((loaded / total) * 100)` in JavaScript
semantics: division by zero gives NaN (for `0 / 0`) or positive infinity,
both fixed points of `Math.round`. -/
def uploadPercent (loaded total : ℕ) : JSNum :=
  if total = 0 then
    (if loaded = 0 then JSNum.nan else JSNum.posInf)
  else
    JSNum.num (jsRound ((loaded : ℚ) / (total : ℚ) * 100))

/-- The `onUploadProgress` handler: stores the computed percentage. -/
def onUploadProgress (loaded total : ℕ) (s : UploadState) : UploadState :=
  { s with progress := uploadPercent loaded total }

/-- JavaScript truth of `progress > 0` on a number. -/
def JSNum.gtZero : JSNum → Bool
  | JSNum.num q => decide (0 < q)
  | JSNum.posInf => true
  | JSNum.negInf => false
  | JSNum.nan => false

/-- JavaScript truth of `progress !== 100` on a number (NaN is unequal to
everything, so the result is `true` on NaN and the infinities). -/
def JSNum.ne100 : JSNum → Bool
  | JSNum.num q => decide (q ≠ 100)
  | JSNum.posInf => true
  | JSNum.negInf => true
  | JSNum.nan => true

/-- Render condition of the progress indicator:
`progress > 0 && progress !== 100`. -/
def showProgressBar (p : JSNum) : Bool :=
  p.gtZero && p.ne100

/-- Auth JSON body shape expected from the backend endpoint:
`{ signature, expire, token }`. -/
structure AuthData where
  signature : String
  expire : Int
  token : String
deriving DecidableEq

/-- Credential triple returned by the authenticator and handed to the SDK. -/
structure AuthGrant where
  token : String
  expire : Int
  signature : String
deriving DecidableEq

/-- Outcome of the `fetch` of the auth endpoint: an HTTP response whose body
parsed into the expected shape, an HTTP response whose `.json()` call throws
(carrying the engine's parse-error message), or a network failure (the
`fetch` itself throws, carrying the underlying message). -/
inductive FetchResult where
  | response (status : ℕ) (body : String) (data : AuthData) : FetchResult
  | parseFail (status : ℕ) (body : String) (errMsg : String) : FetchResult
  | netError (msg : String) : FetchResult

/-- The `ok` field of a fetch `Response`: status in [200, 300). -/
def respOk (status : ℕ) : Bool :=
  200 ≤ status && status < 300

/-- Message of the error thrown inside the `try` block on a non-ok status. -/
def authErrorMsg (status : ℕ) (body : String) : String :=
  "Request failed with status " ++ toString status ++ ": " ++ body

/-- The `authenticator` function: fetches the auth endpoint; on an ok status
it destructures `{signature, expire, token}` from the body and returns
`{token, expire, signature}`; every failure is caught and rethrown with the
prefix `Authentication request failed: ` around the inner message. -/
def authenticator : FetchResult → Except String AuthGrant
  | FetchResult.response status body d =>
    if respOk status then
      Except.ok { token := d.token, expire := d.expire, signature := d.signature }
    else
      Except.error ("Authentication request failed: " ++ authErrorMsg status body)
  | FetchResult.parseFail status body errMsg =>
    if respOk status then
      Except.error ("Authentication request failed: " ++ errMsg)
    else
      Except.error ("Authentication request failed: " ++ authErrorMsg status body)
  | FetchResult.netError m =>
    Except.error ("Authentication request failed: " ++ m)

/-- Modelled from the spec: the SDK boundary (spec §5 and §6, code external
to this repository) guarantees that authentication completes before the
transfer begins and that the transfer receives the authenticator's grant;
when the authenticator throws, no transfer is attempted. -/
def initiateTransfer (r : FetchResult) : Option AuthGrant :=
  match authenticator r with
  | Except.ok g => some g
  | Except.error _ => none

/-- One string occurs inside another. -/
def containsStr (s sub : String) : Prop :=
  ∃ a b : String, s = a ++ sub ++ b

/-- Progress value is an integer in [0, 100]. -/
def inRange01 (p : JSNum) : Prop :=
  ∃ k : ℤ, 0 ≤ k ∧ k ≤ 100 ∧ p = JSNum.num (k : ℚ)

/-- C1: for every file whose size is at most the kind-dependent ceiling
(20 MiB for images, 50 MiB for videos) `onValidate` accepts, and for every
file strictly above the ceiling it rejects: acceptance is equivalent to the
size being within the ceiling for the instance's media type. -/
theorem onValidate_size_ceiling (ty : MediaType) (size : ℕ) :
    (onValidate ty size).1 = true ↔
      ((ty = MediaType.image → size ≤ 20 * 1024 * 1024) ∧
       (ty = MediaType.video → size ≤ 50 * 1024 * 1024)) := by
  cases ty <;> simp [onValidate] <;> split <;> simp_all

/-- C1 witness: a 20 MiB image is accepted and a file one byte above the
50 MiB video ceiling is rejected. -/
theorem onValidate_size_ceiling_witness :
    (onValidate MediaType.image (20 * 1024 * 1024)).1 = true ∧
      (onValidate MediaType.video (50 * 1024 * 1024 + 1)).1 = false := by
  constructor
  · exact (onValidate_size_ceiling MediaType.image (20 * 1024 * 1024)).mpr (by decide)
  · rw [← Bool.not_eq_true]
    intro ht
    have h := (onValidate_size_ceiling MediaType.video (50 * 1024 * 1024 + 1)).mp ht
    have h2 := h.2 rfl
    omega

/-- C7: `onUploadStart` resets the progress value to 0, and neither
`onSuccess` nor `onError` changes the progress value, whatever payload or
error they receive. -/
theorem progress_frame (ty : MediaType) (res : SuccessRes) (s : UploadState) :
    (onUploadStart s).progress = JSNum.num 0 ∧
      ((onSuccess ty res s).1).progress = s.progress ∧
      ((onError ty s).1).progress = s.progress := by
  refine ⟨rfl, ?_, rfl⟩
  match hres : res.filePath with
  | some p =>
    by_cases hp : p = "" <;> simp [onSuccess, hres, hp, onError]
  | none => simp [onSuccess, hres, onError]

/-- C8: `onError` leaves the stored remote path unchanged for every error:
the last successfully uploaded path, if any, remains the displayed state
after a failure. -/
theorem onError_preserves_filePath (ty : MediaType) (s : UploadState) :
    ((onError ty s).1).filePath = s.filePath := rfl

/-- C10: for a progress event with `total = 0` the division is unguarded:
the stored value is NaN when `loaded = 0` and positive infinity otherwise,
and in neither case is it a finite number, let alone an integer in [0, 100]. -/
theorem onUploadProgress_total_zero (loaded : ℕ) (s : UploadState) :
    (onUploadProgress loaded 0 s).progress =
        (if loaded = 0 then JSNum.nan else JSNum.posInf) ∧
      ∀ k : ℚ, (onUploadProgress loaded 0 s).progress ≠ JSNum.num k := by
  constructor
  · by_cases hl : loaded = 0 <;> simp [onUploadProgress, uploadPercent, hl]
  · intro k
    by_cases hl : loaded = 0 <;> simp [onUploadProgress, uploadPercent, hl]

/-- C10 witness: the event `loaded = 1, total = 0` stores positive infinity,
which is not the finite number 100. -/
theorem onUploadProgress_total_zero_witness :
    (onUploadProgress 1 0 (initialState none)).progress = JSNum.posInf ∧
      (onUploadProgress 1 0 (initialState none)).progress ≠ JSNum.num 100 := by
  constructor
  · have h := (onUploadProgress_total_zero 1 (initialState none)).1
    simpa using h
  · exact (onUploadProgress_total_zero 1 (initialState none)).2 100

/-- C2: for every success payload with a non-empty file path, `onSuccess`
stores that path as the new remote path and invokes the caller callback
exactly once with exactly that path (and emits the success toast); for every
payload with an empty or missing file path, it emits the destructive failure
toast, performs no callback invocation and leaves the state unchanged. -/
theorem onSuccess_filePath_spec (ty : MediaType) (res : SuccessRes) (s : UploadState) :
    (∀ p : String, res.filePath = some p → p ≠ "" →
      (onSuccess ty res s).1.filePath = some p ∧
        (onSuccess ty res s).2.2 = [p] ∧
        (onSuccess ty res s).2.1 = [successToast ty p]) ∧
    (res.filePath = none ∨ res.filePath = some "" →
      (onSuccess ty res s).1 = s ∧
        (onSuccess ty res s).2.2 = [] ∧
        (onSuccess ty res s).2.1 = [failToast ty]) := by
  constructor
  · intro p hres hp
    simp [onSuccess, hres, hp]
  · intro hres
    rcases hres with hres | hres <;> simp [onSuccess, hres, onError]

/-- C2 witness: the payload with path "/img/abc.png" produces exactly one
callback invocation with that path, and the payload with a missing path
produces none. -/
theorem onSuccess_filePath_spec_witness :
    (onSuccess MediaType.image ⟨some "/img/abc.png"⟩ (initialState none)).2.2 =
        ["/img/abc.png"] ∧
      (onSuccess MediaType.image ⟨none⟩ (initialState none)).2.2 = [] := by
  constructor
  · exact ((onSuccess_filePath_spec MediaType.image ⟨some "/img/abc.png"⟩
      (initialState none)).1 "/img/abc.png" rfl (by simp)).2.1
  · exact ((onSuccess_filePath_spec MediaType.image ⟨none⟩
      (initialState none)).2 (Or.inl rfl)).2.1

/-- C3: for every auth response with a non-ok HTTP status the authenticator
fails with an error message containing the response body, and for every
network failure it fails with an error message containing the underlying
message; in both cases no transfer is initiated. -/
theorem authenticator_failure_spec (status : ℕ) (body : String) (d : AuthData)
    (m : String) (h : respOk status = false) :
    (∃ msg : String, authenticator (FetchResult.response status body d) =
        Except.error msg ∧ containsStr msg body) ∧
      initiateTransfer (FetchResult.response status body d) = none ∧
      (∃ msg : String, authenticator (FetchResult.netError m) =
        Except.error msg ∧ containsStr msg m) ∧
      initiateTransfer (FetchResult.netError m) = none := by
  refine ⟨⟨"Authentication request failed: " ++ authErrorMsg status body, ?_, ?_⟩,
    ?_, ⟨"Authentication request failed: " ++ m, rfl, ?_⟩, rfl⟩
  · simp [authenticator, h]
  · exact ⟨"Authentication request failed: " ++
      ("Request failed with status " ++ toString status ++ ": "), "",
      by simp [authErrorMsg, String.append_assoc]⟩
  · simp [initiateTransfer, authenticator, h]
  · exact ⟨"Authentication request failed: ", "", by simp⟩

/-- C3 witness: HTTP 500 with body "server error" yields an authenticator
error whose message contains "server error" and no transfer is initiated. -/
theorem authenticator_failure_spec_witness :
    respOk 500 = false ∧
      initiateTransfer (FetchResult.response 500 "server error" ⟨"s", 1, "t"⟩) = none ∧
      (∃ msg : String, authenticator (FetchResult.response 500 "server error" ⟨"s", 1, "t"⟩) =
        Except.error msg ∧ containsStr msg "server error") := by
  have h := authenticator_failure_spec 500 "server error" ⟨"s", 1, "t"⟩
    "network down" (by decide)
  exact ⟨by decide, h.2.1, h.1⟩

/-- C5: for every successful auth fetch whose body holds the triple
`{signature, expire, token}`, the authenticator returns exactly the triple
`{token, expire, signature}` unchanged, and the transfer is initiated with
exactly that triple. -/
theorem authenticator_success_triple (status : ℕ) (body : String) (d : AuthData)
    (h : respOk status = true) :
    authenticator (FetchResult.response status body d) =
        Except.ok { token := d.token, expire := d.expire, signature := d.signature } ∧
      initiateTransfer (FetchResult.response status body d) =
        some { token := d.token, expire := d.expire, signature := d.signature } := by
  constructor <;> simp [authenticator, initiateTransfer, h]

/-- C5 witness: a 200 response with body `{signature: "s", expire: 123,
token: "t"}` initiates the transfer with exactly the triple
`{token: "t", expire: 123, signature: "s"}`. -/
theorem authenticator_success_triple_witness :
    respOk 200 = true ∧
      initiateTransfer (FetchResult.response 200 "" ⟨"s", 123, "t"⟩) =
        some { token := "t", expire := 123, signature := "s" } :=
  ⟨by decide, (authenticator_success_triple 200 "" ⟨"s", 123, "t"⟩ (by decide)).2⟩

/-- C4: for every progress event with a positive total, the stored progress
is the JavaScript rounding of loaded/total*100 — equivalently the natural
number (200*loaded + total) / (2*total) — and the event loaded = 50,
total = 200 yields exactly 25. -/
theorem onUploadProgress_rounds (loaded total : ℕ) (s : UploadState) (h : total ≠ 0) :
    (onUploadProgress loaded total s).progress =
        JSNum.num ((⌊(loaded : ℚ) / (total : ℚ) * 100 + 1 / 2⌋ : ℤ) : ℚ) ∧
      (onUploadProgress loaded total s).progress =
        JSNum.num ((((200 * loaded + total) / (2 * total) : ℕ) : ℤ) : ℚ) ∧
      (onUploadProgress 50 200 (initialState none)).progress = JSNum.num 25 := by
  have harg : (loaded : ℚ) / (total : ℚ) * 100 + 1 / 2 =
      (((200 * loaded + total : ℕ) : ℤ) : ℚ) / ((2 * total : ℕ) : ℚ) := by
    have ht : ((total : ℚ)) ≠ 0 := Nat.cast_ne_zero.mpr h
    push_cast
    field_simp
    ring
  have hfloor : ⌊(loaded : ℚ) / (total : ℚ) * 100 + 1 / 2⌋ =
      (((200 * loaded + total) / (2 * total) : ℕ) : ℤ) := by
    rw [harg, Rat.floor_intCast_div_natCast, Int.ofNat_ediv]
  have h1 : (onUploadProgress loaded total s).progress =
      JSNum.num ((⌊(loaded : ℚ) / (total : ℚ) * 100 + 1 / 2⌋ : ℤ) : ℚ) := by
    simp [onUploadProgress, uploadPercent, h, jsRound]
  refine ⟨h1, ?_, ?_⟩
  · rw [h1, hfloor]
  · have h50 : jsRound ((50 : ℚ) / (200 : ℚ) * 100) = 25 := by
      have : (50 : ℚ) / (200 : ℚ) * 100 + 1 / 2 = (((51 : ℤ) : ℚ)) / ((2 : ℕ) : ℚ) := by
        norm_num
      rw [jsRound, this, Rat.floor_intCast_div_natCast]
      decide
    simp [onUploadProgress, uploadPercent, h50]

/-- C4 witness: the event loaded = 50, total = 200 from the initial state
stores progress 25. -/
theorem onUploadProgress_rounds_witness :
    (200 : ℕ) ≠ 0 ∧
      (onUploadProgress 50 200 (initialState none)).progress = JSNum.num 25 :=
  ⟨by decide, (onUploadProgress_rounds 50 200 (initialState none) (by decide)).2.2⟩

/-- C6 counterexample: the claim ranges over all event-handler inputs, but
the progress event loaded = 2, total = 1 stores the value 200, which is not
an integer in [0, 100]. -/
theorem progress_range_cex :
    ¬ inRange01 ((onUploadProgress 2 1 (initialState none)).progress) := by
  intro hr
  obtain ⟨k, hk0, hk100, hk⟩ := hr
  have hp : (onUploadProgress 2 1 (initialState none)).progress =
      JSNum.num ((200 : ℤ) : ℚ) := by
    have harg : (2 : ℚ) * 100 + 1 / 2 = ((401 : ℤ) : ℚ) / ((2 : ℕ) : ℚ) := by
      norm_num
    have hfl : jsRound ((2 : ℚ) * 100) = 200 := by
      rw [jsRound, harg, Rat.floor_intCast_div_natCast]
      decide
    simp [onUploadProgress, uploadPercent, hfl]
  rw [hp] at hk
  have h2 : ((200 : ℤ) : ℚ) = (k : ℚ) := JSNum.num.inj hk
  have h3 : (200 : ℤ) = k := by exact_mod_cast h2
  omega

/-- C6 amended: the progress value is an integer in [0, 100] after mount,
after a start event, and after success and error events whenever it was
before; a progress event keeps it in [0, 100] provided the event satisfies
0 < total and loaded ≤ total (the SDK-normal case); without that proviso the
claim fails, as the counterexample shows. -/
theorem progress_range_amended (v : Option String) (ty : MediaType)
    (res : SuccessRes) (s : UploadState) (loaded total : ℕ)
    (h1 : 0 < total) (h2 : loaded ≤ total) :
    inRange01 (initialState v).progress ∧
      inRange01 (onUploadStart s).progress ∧
      (inRange01 s.progress → inRange01 ((onSuccess ty res s).1).progress) ∧
      (inRange01 s.progress → inRange01 ((onError ty s).1).progress) ∧
      inRange01 (onUploadProgress loaded total s).progress := by
  have hzero : inRange01 (JSNum.num 0) := ⟨0, le_refl 0, by omega, by norm_num⟩
  refine ⟨hzero, hzero, ?_, ?_, ?_⟩
  · intro hs
    have hpr : ((onSuccess ty res s).1).progress = s.progress := by
      match hres : res.filePath with
      | some p => by_cases hp : p = "" <;> simp [onSuccess, hres, hp, onError]
      | none => simp [onSuccess, hres, onError]
    rw [hpr]
    exact hs
  · intro hs
    exact hs
  · have ht0 : total ≠ 0 := Nat.pos_iff_ne_zero.mp h1
    have htq : (0 : ℚ) < (total : ℚ) := by exact_mod_cast h1
    have hx0 : (0 : ℚ) ≤ (loaded : ℚ) / (total : ℚ) * 100 := by positivity
    have hx100 : (loaded : ℚ) / (total : ℚ) * 100 ≤ 100 := by
      rw [div_mul_eq_mul_div, div_le_iff₀ htq]
      have hl : (loaded : ℚ) ≤ (total : ℚ) := by exact_mod_cast h2
      nlinarith
    refine ⟨jsRound ((loaded : ℚ) / (total : ℚ) * 100), ?_, ?_, ?_⟩
    · rw [jsRound, Int.floor_nonneg]
      linarith
    · rw [jsRound, Int.floor_le_iff]
      push_cast
      linarith
    · simp [onUploadProgress, uploadPercent, ht0]

/-- C6 amended witness: the progress event loaded = 1, total = 2 from the
initial state keeps the progress value an integer in [0, 100]. -/
theorem progress_range_amended_witness :
    (0 < 2 ∧ 1 ≤ 2) ∧
      inRange01 ((onUploadProgress 1 2 (initialState none)).progress) :=
  ⟨by decide, (progress_range_amended none MediaType.image ⟨none⟩
    (initialState none) 1 2 (by decide) (by decide)).2.2.2.2⟩

/-- C9 counterexample: the progress event loaded = 3, total = 2 stores the
value 150; the indicator condition then holds (the bar is displayed) even
though 0 < 150 < 100 is false, so displayed-iff-(0 < p < 100) fails at 150. -/
theorem showProgressBar_overshoot_cex :
    (onUploadProgress 3 2 (initialState none)).progress = JSNum.num 150 ∧
      showProgressBar (JSNum.num 150) = true ∧
      ¬((0 : ℚ) < 150 ∧ (150 : ℚ) < 100) := by
  refine ⟨?_, ?_, ?_⟩
  · have harg : (3 : ℚ) / (2 : ℚ) * 100 + 1 / 2 = ((301 : ℤ) : ℚ) / ((2 : ℕ) : ℚ) := by
      norm_num
    have hfl : jsRound ((3 : ℚ) / (2 : ℚ) * 100) = 150 := by
      rw [jsRound, harg, Rat.floor_intCast_div_natCast]
      decide
    simp [onUploadProgress, uploadPercent, hfl]
  · norm_num [showProgressBar, JSNum.gtZero, JSNum.ne100]
  · norm_num

/-- C9 amended: the indicator condition of the source is progress > 0 and
progress different from 100; restricted to integer progress values in
[0, 100] — the values the spec's data model allows — that is equivalent to
0 < progress < 100, and the indicator is hidden at exactly 0 and at exactly
100. -/
theorem showProgressBar_amended (k : ℤ) (h0 : 0 ≤ k) (h1 : k ≤ 100) :
    (showProgressBar (JSNum.num (k : ℚ)) = true ↔ 0 < k ∧ k < 100) ∧
      showProgressBar (JSNum.num 0) = false ∧
      showProgressBar (JSNum.num 100) = false := by
  refine ⟨?_, ?_, ?_⟩
  · simp only [showProgressBar, JSNum.gtZero, JSNum.ne100, Bool.and_eq_true,
      decide_eq_true_eq]
    have e1 : (0 : ℚ) < (k : ℚ) ↔ 0 < k := by exact_mod_cast Iff.rfl
    have e2 : ((k : ℚ) = 100) ↔ k = 100 := by exact_mod_cast Iff.rfl
    rw [e1, ne_eq, e2]
    omega
  · norm_num [showProgressBar, JSNum.gtZero, JSNum.ne100]
  · norm_num [showProgressBar, JSNum.gtZero, JSNum.ne100]

/-- C9 amended witness: at the in-range value 50 the indicator is
displayed. -/
theorem showProgressBar_amended_witness :
    ((0 : ℤ) ≤ 50 ∧ (50 : ℤ) ≤ 100) ∧
      showProgressBar (JSNum.num ((50 : ℤ) : ℚ)) = true :=
  ⟨by decide, ((showProgressBar_amended 50 (by decide) (by decide)).1).mpr (by decide)⟩
